import Mathlib

/-!
Verification of the serziam access-code system.

This file shallowly embeds the access-code core of `serziamserver.py`
(`DeterministicCodeGenerator`, `HiddenAccessCodeManager`, `AccessValidator`,
`DatabaseManager.update_access_code` / `get_current_access_code`) and the
standalone `codegenerator.py`, and proves or refutes the specification's
claims about them.

Bytes are modelled as `Nat` values below 256, 32-bit words as `Nat` values
reduced modulo `2^32`; fixed-size machine arithmetic is made explicit with
`% 2^32` where overflow matters.
-/

namespace Serziam

/-! ### SHA-256 (FIPS 180-4), as used by Python hashlib -/

/-- Modulus for 32-bit words. -/
def M32 : Nat := 4294967296

/-- Right rotation of a 32-bit word by `n` bits. -/
def rotr (n x : Nat) : Nat := ((x >>> n) ||| (x <<< (32 - n))) % M32

/-- Bitwise complement on 32-bit words. -/
def wnot (x : Nat) : Nat := x ^^^ (M32 - 1)

/-- SHA-256 `Ch` function. -/
def ch (x y z : Nat) : Nat := (x &&& y) ^^^ (wnot x &&& z)

/-- SHA-256 `Maj` function. -/
def maj (x y z : Nat) : Nat := (x &&& y) ^^^ (x &&& z) ^^^ (y &&& z)

/-- SHA-256 big sigma 0. -/
def bsig0 (x : Nat) : Nat := rotr 2 x ^^^ rotr 13 x ^^^ rotr 22 x

/-- SHA-256 big sigma 1. -/
def bsig1 (x : Nat) : Nat := rotr 6 x ^^^ rotr 11 x ^^^ rotr 25 x

/-- SHA-256 small sigma 0. -/
def ssig0 (x : Nat) : Nat := rotr 7 x ^^^ rotr 18 x ^^^ (x >>> 3)

/-- SHA-256 small sigma 1. -/
def ssig1 (x : Nat) : Nat := rotr 17 x ^^^ rotr 19 x ^^^ (x >>> 10)

/-- The 64 SHA-256 round constants, written in decimal. -/
def K : List Nat :=
  [1116352408, 1899447441, 3049323471, 3921009573, 961987163,
   1508970993, 2453635748, 2870763221, 3624381080, 310598401,
   607225278, 1426881987, 1925078388, 2162078206, 2614888103,
   3248222580, 3835390401, 4022224774, 264347078, 604807628,
   770255983, 1249150122, 1555081692, 1996064986, 2554220882,
   2821834349, 2952996808, 3210313671, 3336571891, 3584528711,
   113926993, 338241895, 666307205, 773529912, 1294757372,
   1396182291, 1695183700, 1986661051, 2177026350, 2456956037,
   2730485921, 2820302411, 3259730800, 3345764771, 3516065817,
   3600352804, 4094571909, 275423344, 430227734, 506948616,
   659060556, 883997877, 958139571, 1322822218, 1537002063,
   1747873779, 1955562222, 2024104815, 2227730452, 2361852424,
   2428436474, 2756734187, 3204031479, 3329325298]

/-- The eight working variables of the compression function. -/
structure Hash8 where
  a : Nat
  b : Nat
  c : Nat
  d : Nat
  e : Nat
  f : Nat
  g : Nat
  h : Nat
deriving Repr, DecidableEq

/-- SHA-256 initial hash value, written in decimal. -/
def initH : Hash8 :=
  ⟨1779033703, 3144134277, 1013904242, 2773480762,
   1359893119, 2600822924, 528734635, 1541459225⟩

/-- Append the next word of the message schedule to `w`. -/
def nextScheduleWord (w : List Nat) : Nat :=
  let l := w.length
  (ssig1 (w.getD (l - 2) 0) + w.getD (l - 7) 0 +
   ssig0 (w.getD (l - 15) 0) + w.getD (l - 16) 0) % M32

/-- Extend a 16-word block by `n` further schedule words. -/
def extendW (w : List Nat) : Nat → List Nat
  | 0 => w
  | n + 1 => extendW (w ++ [nextScheduleWord w]) n

/-- One round of the SHA-256 compression function. -/
def round (s : Hash8) (kt wt : Nat) : Hash8 :=
  let t1 := (s.h + bsig1 s.e + ch s.e s.f s.g + kt + wt) % M32
  let t2 := (bsig0 s.a + maj s.a s.b s.c) % M32
  ⟨(t1 + t2) % M32, s.a, s.b, s.c, (s.d + t1) % M32, s.e, s.f, s.g⟩

/-- Compress one 16-word block into the running hash state. -/
def compressBlock (s : Hash8) (block : List Nat) : Hash8 :=
  let w := extendW block 48
  let t := (K.zip w).foldl (fun st kw => round st kw.1 kw.2) s
  ⟨(s.a + t.a) % M32, (s.b + t.b) % M32, (s.c + t.c) % M32, (s.d + t.d) % M32,
   (s.e + t.e) % M32, (s.f + t.f) % M32, (s.g + t.g) % M32, (s.h + t.h) % M32⟩

/-- SHA-256 padding: append `0x80`, zeros to 56 mod 64, then the 64-bit
big-endian bit length. -/
def padMessage (msg : List Nat) : List Nat :=
  let l := msg.length
  let k := (119 - l % 64) % 64
  msg ++ [0x80] ++ List.replicate k 0 ++
    (List.range 8).map (fun i => (8 * l) >>> (8 * (7 - i)) % 256)

/-- Split a byte list into 64-byte chunks. -/
def chunks64 (l : List Nat) : List (List Nat) :=
  match l with
  | [] => []
  | x :: xs => (x :: xs).take 64 :: chunks64 ((x :: xs).drop 64)
termination_by l.length
decreasing_by simp; omega

/-- Interpret a 64-byte chunk as 16 big-endian 32-bit words. -/
def bytesToWords (chunk : List Nat) : List Nat :=
  (List.range 16).map (fun j =>
    chunk.getD (4 * j) 0 * 16777216 + chunk.getD (4 * j + 1) 0 * 65536 +
    chunk.getD (4 * j + 2) 0 * 256 + chunk.getD (4 * j + 3) 0)

/-- The four big-endian bytes of a 32-bit word. -/
def wordBytes (w : Nat) : List Nat :=
  [w >>> 24 % 256, w >>> 16 % 256, w >>> 8 % 256, w % 256]

/-- SHA-256 of a byte sequence, as its 32-byte digest. -/
def sha256 (msg : List Nat) : List Nat :=
  let blocks := (chunks64 (padMessage msg)).map bytesToWords
  let s := blocks.foldl compressBlock initH
  wordBytes s.a ++ wordBytes s.b ++ wordBytes s.c ++ wordBytes s.d ++
  wordBytes s.e ++ wordBytes s.f ++ wordBytes s.g ++ wordBytes s.h

/-- HMAC-SHA-256 (RFC 2104) of `msg` under `key`, as used by Python
`hmac.new(key, msg, hashlib.sha256).digest()`. -/
def hmacSha256 (key msg : List Nat) : List Nat :=
  let k0 := if 64 < key.length then sha256 key else key
  let kpad := k0 ++ List.replicate (64 - k0.length) 0
  let ipad := kpad.map (fun b => b ^^^ 0x36)
  let opad := kpad.map (fun b => b ^^^ 0x5c)
  sha256 (opad ++ sha256 (ipad ++ msg))

/-! ### UTF-8 encoding of strings, as Python `str.encode('utf-8')` -/

/-- UTF-8 bytes of one code point. -/
def utf8Bytes (c : Char) : List Nat :=
  let n := c.toNat
  if n < 0x80 then [n]
  else if n < 0x800 then [0xC0 + n / 64, 0x80 + n % 64]
  else if n < 0x10000 then
    [0xE0 + n / 4096, 0x80 + n / 64 % 64, 0x80 + n % 64]
  else
    [0xF0 + n / 262144, 0x80 + n / 4096 % 64, 0x80 + n / 64 % 64,
     0x80 + n % 64]

/-- UTF-8 bytes of a string. -/
def strBytes (s : String) : List Nat := s.data.flatMap utf8Bytes

/-! ### Code derivation (`serziamserver.py`, `DeterministicCodeGenerator`) -/

namespace Config

/-- The constant `Config.SECRET_SEED` from `serziamserver.py`. -/
def SECRET_SEED : String := "asterisk_secure_deterministic_v1"

end Config

/-- The fixed code alphabet `chars` used by both generators. -/
def chars : String := "ABCDEFGHIJKLMNOPQRSTUVWXYZ0123456789"

/-- Embeds `DeterministicCodeGenerator.generate_deterministic_code(month_year, length)`
with the generator's `secret_seed` passed explicitly (the in-server instances
are constructed with `Config.SECRET_SEED`).  Mirrors the source: HMAC-SHA-256
of the period under the secret, then for each `i in range(length)` the
character `chars[(hash_bytes[i % len(hash_bytes)] + i) % len(chars)]`. -/
def generate_deterministic_code (secret_seed month_year : String)
    (length : Nat := 8) : String :=
  let hash_bytes := hmacSha256 (strBytes secret_seed) (strBytes month_year)
  let code_chars := (List.range length).map (fun i =>
    let byte_val := hash_bytes.getD (i % hash_bytes.length) 0 + i
    chars.data.getD (byte_val % chars.data.length) 'A')
  String.mk code_chars

end Serziam

namespace codegenerator

/-- The constant `SECRET_SEED` from `codegenerator.py`. -/
def SECRET_SEED : String := "asterisk_secure_deterministic_v1"

/-- Embeds `codegenerator.generate_code(month_year)` from `codegenerator.py`:
the same HMAC-SHA-256 selection loop, with the module's own constant
`SECRET_SEED` and a fixed 8 iterations (`for i in range(8)`). -/
def generate_code (month_year : String) : String :=
  let hash_bytes :=
    Serziam.hmacSha256 (Serziam.strBytes SECRET_SEED)
      (Serziam.strBytes month_year)
  let code_chars := (List.range 8).map (fun i =>
    let byte_val := hash_bytes.getD (i % hash_bytes.length) 0 + i
    Serziam.chars.data.getD (byte_val % Serziam.chars.data.length) 'A')
  String.mk code_chars

end codegenerator

namespace Serziam

/-! ### Dates and times, as Python `datetime` -/

/-- A Python `datetime` value, by its fields. -/
structure DateTime where
  year : Nat
  month : Nat
  day : Nat
  hour : Nat
  minute : Nat
  second : Nat
deriving Repr, DecidableEq

/-- The Gregorian leap-year rule used by Python `datetime`. -/
def isLeapYear (y : Nat) : Bool :=
  y % 4 == 0 && (y % 100 != 0 || y % 400 == 0)

/-- Number of days in month `m` of year `y` (proleptic Gregorian). -/
def daysInMonth (m y : Nat) : Nat :=
  if m = 2 then (if isLeapYear y then 29 else 28)
  else if m = 4 ∨ m = 6 ∨ m = 9 ∨ m = 11 then 30
  else 31

/-- Python `d - timedelta(days=1)` on a datetime: the previous calendar day,
with the time of day unchanged. -/
def subOneDay (d : DateTime) : DateTime :=
  if 1 < d.day then { d with day := d.day - 1 }
  else if 1 < d.month then
    { d with month := d.month - 1, day := daysInMonth (d.month - 1) d.year }
  else { d with year := d.year - 1, month := 12, day := 31 }

/-- Python `d + timedelta(seconds=1)` on a datetime. -/
def addSecond (d : DateTime) : DateTime :=
  if d.second < 59 then { d with second := d.second + 1 }
  else if d.minute < 59 then { d with minute := d.minute + 1, second := 0 }
  else if d.hour < 23 then
    { d with hour := d.hour + 1, minute := 0, second := 0 }
  else if d.day < daysInMonth d.month d.year then
    { d with day := d.day + 1, hour := 0, minute := 0, second := 0 }
  else if d.month < 12 then
    { d with month := d.month + 1, day := 1, hour := 0, minute := 0, second := 0 }
  else
    { year := d.year + 1, month := 1, day := 1, hour := 0, minute := 0, second := 0 }

/-- Python datetime comparison `a < b`: lexicographic on
(year, month, day, hour, minute, second). -/
def dtLtB (a b : DateTime) : Bool :=
  if a.year ≠ b.year then decide (a.year < b.year)
  else if a.month ≠ b.month then decide (a.month < b.month)
  else if a.day ≠ b.day then decide (a.day < b.day)
  else if a.hour ≠ b.hour then decide (a.hour < b.hour)
  else if a.minute ≠ b.minute then decide (a.minute < b.minute)
  else decide (a.second < b.second)

/-- The expiry computation of `get_current_code_with_expiry`,
`_handle_expired_code` and `_ensure_main_database`, for a current date with
the given `(month, year)`: day 1 of the next month (December rolls to January
of the next year), minus one day, then
`replace(hour=23, minute=59, second=59)`. -/
def expiry_of_period (month year : Nat) : DateTime :=
  let next_month :=
    if month = 12 then DateTime.mk (year + 1) 1 1 0 0 0
    else DateTime.mk year (month + 1) 1 0 0 0
  let e := subOneDay next_month
  { e with hour := 23, minute := 59, second := 59 }

/-- Python `f"{month:02d}-{year}"`. -/
def formatPeriod (month year : Nat) : String :=
  (if month < 10 then "0" ++ toString month else toString month) ++
    "-" ++ toString year

/-- Embeds `DeterministicCodeGenerator.get_current_period()` for a current date with
the given fields. -/
def get_current_period (now : DateTime) : String :=
  formatPeriod now.month now.year

/-! ### Store, service controller and validator state -/

/-- The `access_codes` row with `id = 1` (code, period, expiry). -/
structure CodeData where
  code : String
  month_year : String
  expires_at : DateTime
deriving Repr, DecidableEq

/-- A service-controller call observed on the trace. -/
inductive ServiceCall where
  | stop
  | start
deriving Repr, DecidableEq

/-- Observable state of a validation session: the current `access_codes` row
(`none` when the table holds no row with `id = 1` and `is_active = 1`), the
`access_codes_history` rows as (code, month_year) pairs, and the trace of
Asterisk stop/start calls. -/
structure World where
  store : Option CodeData
  history : List (String × String)
  serviceCalls : List ServiceCall
deriving Repr, DecidableEq

/-- Embeds `DatabaseManager.get_current_access_code()`. -/
def get_current_access_code (w : World) : Option CodeData := w.store

/-- Embeds `DatabaseManager.update_access_code(new_code, month_year, expires_at)`:
`UPDATE access_codes SET code = ?, month_year = ?, expires_at = ?,
created_at = CURRENT_TIMESTAMP WHERE id = 1`, then `return True`.  The
`UPDATE` modifies the row when one exists and modifies zero rows otherwise;
`True` is returned either way (the `except` branch returning `False` fires
only when the database itself is unreachable, which the model assumes away).
No history row is written. -/
def update_access_code (w : World) (new_code month_year : String)
    (expires_at : DateTime) : Bool × World :=
  (true,
   { w with store :=
       w.store.map (fun _ => CodeData.mk new_code month_year expires_at) })

/-- Embeds `AsteriskManager.stop()`, as its effect on the call trace. -/
def stopService (w : World) : World :=
  { w with serviceCalls := w.serviceCalls ++ [ServiceCall.stop] }

/-- Embeds `AsteriskManager.start()`, as its effect on the call trace. -/
def startService (w : World) : World :=
  { w with serviceCalls := w.serviceCalls ++ [ServiceCall.start] }

/-- Embeds `HiddenAccessCodeManager.validate_code(input_code)`: `False` when no
current record exists, else exact string equality with the stored code. -/
def validate_code (w : World) (input_code : String) : Bool :=
  match get_current_access_code w with
  | none => false
  | some d => input_code == d.code

/-- Embeds `HiddenAccessCodeManager.is_code_expired()` at time `now`: `True` when no
current record exists, else `datetime.now() > expires_at`. -/
def is_code_expired (w : World) (now : DateTime) : Bool :=
  match get_current_access_code w with
  | none => true
  | some d => dtLtB d.expires_at now

/-! ### Operator input normalization -/

/-- Whitespace stripped by Python `str.strip()` (ASCII fragment). -/
def isPySpace (c : Char) : Bool :=
  c = ' ' || c = '\t' || c = '\n' || c = '\r' ||
  c = Char.ofNat 11 || c = Char.ofNat 12

/-- Python `str.strip()`: drop leading and trailing whitespace. -/
def pyStrip (s : String) : String :=
  String.mk (((s.data.dropWhile isPySpace).reverse.dropWhile
    isPySpace).reverse)

/-- Uppercase one character (Python `str.upper()` on ASCII). -/
def upperChar (c : Char) : Char :=
  if 'a' ≤ c ∧ c ≤ 'z' then Char.ofNat (c.toNat - 32) else c

/-- Python `str.upper()` on ASCII strings. -/
def pyUpper (s : String) : String := String.mk (s.data.map upperChar)

/-- Embeds `Terminal.getpass(...).strip().upper()` applied to a raw input line. -/
def normalizeEntry (s : String) : String := pyUpper (pyStrip s)

/-! ### The interactive prompt loop (`AccessValidator._prompt_for_code`) -/

/-- One operator interaction at the masked prompt: an input line, or a
`KeyboardInterrupt`. -/
inductive Event where
  | entry (s : String)
  | interrupt
deriving Repr, DecidableEq

/-- The `while attempts < max_attempts` loop of `_prompt_for_code`, driven by
a list of operator events.  Result `some true` is the source's `return True`
(access granted), `some false` its `return False` (denied), and `none` means
the loop is blocked at `getpass` with no further operator events supplied. -/
def promptLoop (w : World) (max_attempts : Nat) (unlimited : Bool) :
    Nat → List Event → Option Bool × World
  | attempts, [] =>
    if attempts < max_attempts then (none, w) else (some false, w)
  | attempts, ev :: rest =>
    if attempts < max_attempts then
      match ev with
      | Event.interrupt => (some false, w)
      | Event.entry s =>
        let entered_code := normalizeEntry s
        let attempts' := attempts + 1
        if validate_code w entered_code then
          (some true, if unlimited then startService w else w)
        else
          if 0 < max_attempts - attempts' then
            promptLoop w max_attempts unlimited attempts' rest
          else (some false, w)
    else (some false, w)

/-- Embeds `AccessValidator._prompt_for_code(unlimited_attempts)`:
`max_attempts = 9999 if unlimited_attempts else self.max_attempts`, with
`self.max_attempts = 3` from `AccessValidator.__init__`; on a correct entry
in unlimited mode, `AsteriskManager.start()` is called before returning. -/
def prompt_for_code (w : World) (unlimited_attempts : Bool)
    (events : List Event) : Option Bool × World :=
  promptLoop w (if unlimited_attempts then 9999 else 3) unlimited_attempts
    0 events

/-- Embeds `AccessValidator._handle_expired_code()` at time `now`: stop Asterisk,
derive the code for the current period, compute the end-of-month expiry,
store it via `update_access_code`, then prompt with unlimited attempts. -/
def handle_expired_code (now : DateTime) (w : World) (events : List Event) :
    Option Bool × World :=
  let w1 := stopService w
  let month_year := get_current_period now
  let new_code := generate_deterministic_code Config.SECRET_SEED month_year 8
  let expires_at := expiry_of_period now.month now.year
  let r := update_access_code w1 new_code month_year expires_at
  prompt_for_code r.2 true events

/-- Embeds `AccessValidator._validate_current_code()`: deny outright when no current
record exists, else prompt with limited attempts. -/
def validate_current_code (w : World) (events : List Event) :
    Option Bool × World :=
  match get_current_access_code w with
  | none => (some false, w)
  | some _ => prompt_for_code w false events

/-- Embeds `AccessValidator.check_and_validate_access()` at time `now`, driven by a
list of operator events. -/
def check_and_validate_access (now : DateTime) (w : World)
    (events : List Event) : Option Bool × World :=
  if is_code_expired w now then handle_expired_code now w events
  else validate_current_code w events

/-! ### Concrete sample states for instantiating the theorems -/

/-- A sample stored record. -/
def sampleRecord : CodeData :=
  CodeData.mk "A1B2C3D4" "06-2025" (DateTime.mk 2025 6 30 23 59 59)

/-- A world whose store holds `sampleRecord`. -/
def sampleWorld : World := World.mk (some sampleRecord) [] []

/-- A world holding a record that expired at the end of 2024. -/
def expiredWorld : World :=
  World.mk
    (some (CodeData.mk "OLDCODE1" "12-2024" (DateTime.mk 2024 12 31 23 59 59)))
    [] []

/-- A world whose `access_codes` table has no row with `id = 1`. -/
def emptyWorld : World := World.mk none [] []

end Serziam

namespace Serziam

/-! ### Helper lemmas -/

set_option maxRecDepth 8000 in
/-- A SHA-256 digest has 32 bytes. -/
theorem sha256_length (msg : List Nat) : (sha256 msg).length = 32 := by
  unfold sha256
  simp only [wordBytes, List.length_append, List.length_cons, List.length_nil]

/-- An HMAC-SHA-256 digest has 32 bytes. -/
theorem hmacSha256_length (key msg : List Nat) :
    (hmacSha256 key msg).length = 32 := by
  unfold hmacSha256
  exact sha256_length _

/-- The code alphabet has 36 characters. -/
theorem chars_data_length : chars.data.length = 36 := rfl

/-- Every character of the code alphabet is an uppercase letter or a digit. -/
theorem chars_getD_alpha :
    ∀ j < 36,
      ('A' ≤ chars.data.getD j 'A' ∧ chars.data.getD j 'A' ≤ 'Z') ∨
      ('0' ≤ chars.data.getD j 'A' ∧ chars.data.getD j 'A' ≤ '9') := by
  decide

set_option maxRecDepth 8000 in
/-- A generated code has exactly the requested length. -/
theorem generate_deterministic_code_length (s p : String) (n : Nat) :
    (generate_deterministic_code s p n).length = n := by
  unfold generate_deterministic_code
  simp only [String.length_mk, List.length_map, List.length_range]

/-- Python datetime comparison is irreflexive. -/
theorem dtLtB_irrefl (d : DateTime) : dtLtB d d = false := by
  simp [dtLtB]

/-- Any Python datetime is strictly below the datetime one second later. -/
theorem dtLtB_addSecond (d : DateTime) : dtLtB d (addSecond d) = true := by
  unfold addSecond
  split_ifs with h1 h2 h3 h4 h5 <;> simp [dtLtB]

/-- With the attempt budget already exhausted, the loop denies immediately
without reading input. -/
theorem promptLoop_oob (w : World) (m : Nat) (u : Bool) (a : Nat)
    (evs : List Event) (h : ¬ a < m) :
    promptLoop w m u a evs = (some false, w) := by
  cases evs with
  | nil => simp [promptLoop, h]
  | cons e rest => simp [promptLoop, h]

/-- A keyboard interrupt at the prompt denies immediately. -/
theorem promptLoop_interrupt (w : World) (m : Nat) (u : Bool) (a : Nat)
    (rest : List Event) (h : a < m) :
    promptLoop w m u a (Event.interrupt :: rest) = (some false, w) := by
  simp [promptLoop, h]

/-- An entry that validates grants access, starting the service exactly in
unlimited mode, and reads no further input. -/
theorem promptLoop_entry_ok (w : World) (m : Nat) (u : Bool) (a : Nat)
    (s : String) (rest : List Event) (ha : a < m)
    (hv : validate_code w (normalizeEntry s) = true) :
    promptLoop w m u a (Event.entry s :: rest) =
      (some true, if u then startService w else w) := by
  simp [promptLoop, ha, hv]

/-- An entry that fails to validate consumes one attempt and either loops or,
with the budget used up, denies. -/
theorem promptLoop_entry_fail (w : World) (m : Nat) (u : Bool) (a : Nat)
    (s : String) (rest : List Event) (ha : a < m)
    (hv : validate_code w (normalizeEntry s) = false) :
    promptLoop w m u a (Event.entry s :: rest) =
      if a + 1 < m then promptLoop w m u (a + 1) rest
      else (some false, w) := by
  simp only [promptLoop, if_pos ha, hv, Bool.false_eq_true, if_false]
  split_ifs with h1 h2 h2 <;> first | rfl | omega

/-- With a record in the store, an entry whose normalized form equals the
stored code validates. -/
theorem validate_code_of_eq (w : World) (d : CodeData) (s : String)
    (hs : w.store = some d) (hm : normalizeEntry s = d.code) :
    validate_code w (normalizeEntry s) = true := by
  simp [validate_code, get_current_access_code, hs, hm]

/-- With a record in the store, an entry whose normalized form differs from
the stored code fails to validate. -/
theorem validate_code_of_ne (w : World) (d : CodeData) (s : String)
    (hs : w.store = some d) (hm : normalizeEntry s ≠ d.code) :
    validate_code w (normalizeEntry s) = false := by
  simp [validate_code, get_current_access_code, hs, hm]

/-- With no record in the store, no entry validates. -/
theorem validate_code_none (w : World) (s : String) (hw : w.store = none) :
    validate_code w s = false := by
  simp [validate_code, get_current_access_code, hw]

/-- Running the loop over a block of entries that all fail to validate:
either the budget survives and the loop continues on the remaining events
with the attempt counter advanced, or the budget is exhausted and the loop
denies with the world unchanged. -/
theorem promptLoop_mismatch_list (w : World) (d : CodeData) (m : Nat)
    (u : Bool) (hs : w.store = some d) :
    ∀ (bad : List String), (∀ s ∈ bad, normalizeEntry s ≠ d.code) →
    ∀ (a : Nat) (rest : List Event),
      promptLoop w m u a (bad.map Event.entry ++ rest) =
        if a + bad.length < m then promptLoop w m u (a + bad.length) rest
        else (some false, w) := by
  intro bad
  induction bad with
  | nil =>
    intro _ a rest
    simp only [List.map_nil, List.nil_append, List.length_nil, Nat.add_zero]
    split_ifs with h1
    · rfl
    · exact promptLoop_oob w m u a rest h1
  | cons s bs ih =>
    intro hbad a rest
    have hmis : normalizeEntry s ≠ d.code := hbad s (by simp)
    have hbs : ∀ t ∈ bs, normalizeEntry t ≠ d.code :=
      fun t ht => hbad t (by simp [ht])
    by_cases ha : a < m
    · rw [List.map_cons, List.cons_append,
        promptLoop_entry_fail w m u a s _ ha
          (validate_code_of_ne w d s hs hmis)]
      by_cases ha2 : a + 1 < m
      · rw [if_pos ha2, ih hbs (a + 1) rest]
        have e : a + 1 + bs.length = a + (s :: bs).length := by
          simp only [List.length_cons]
          omega
        rw [e]
      · rw [if_neg ha2, if_neg (by simp; omega)]
    · rw [promptLoop_oob w m u a _ ha, if_neg (by omega)]

/-- With no record in the store the loop can only block or deny, and the
world is left untouched in either case. -/
theorem promptLoop_store_none (w : World) (m : Nat) (u : Bool)
    (hw : w.store = none) :
    ∀ (evs : List Event) (a : Nat),
      promptLoop w m u a evs = (none, w) ∨
      promptLoop w m u a evs = (some false, w) := by
  intro evs
  induction evs with
  | nil =>
    intro a
    by_cases ha : a < m
    · left; simp [promptLoop, ha]
    · right; simp [promptLoop, ha]
  | cons e rest ih =>
    intro a
    by_cases ha : a < m
    · cases e with
      | interrupt => right; exact promptLoop_interrupt w m u a rest ha
      | entry s =>
        rw [promptLoop_entry_fail w m u a s rest ha
          (validate_code_none w _ hw)]
        by_cases h2 : a + 1 < m
        · rw [if_pos h2]; exact ih (a + 1)
        · rw [if_neg h2]; right; rfl
    · right; exact promptLoop_oob w m u a _ ha

/-- Unfolding the loop on an exhausted event list. -/
theorem promptLoop_nil (w : World) (m : Nat) (u : Bool) (a : Nat) :
    promptLoop w m u a [] = if a < m then (none, w) else (some false, w) :=
  rfl

/-- The prompt loop never writes history rows. -/
theorem promptLoop_history (w : World) (m : Nat) (u : Bool) :
    ∀ (evs : List Event) (a : Nat),
      ((promptLoop w m u a evs).2).history = w.history := by
  intro evs
  induction evs with
  | nil =>
    intro a
    by_cases ha : a < m <;> simp [promptLoop, ha]
  | cons e rest ih =>
    intro a
    by_cases ha : a < m
    · cases e with
      | interrupt => simp [promptLoop_interrupt w m u a rest ha]
      | entry s =>
        cases hv : validate_code w (normalizeEntry s) with
        | true =>
          rw [promptLoop_entry_ok w m u a s rest ha hv]
          cases u <;> simp [startService]
        | false =>
          rw [promptLoop_entry_fail w m u a s rest ha hv]
          by_cases h2 : a + 1 < m
          · rw [if_pos h2]; exact ih (a + 1)
          · rw [if_neg h2]
    · simp [promptLoop_oob w m u a _ ha]

set_option maxRecDepth 8000 in
/-- The generated code, character by character: position `i` holds
`chars[(digest[i mod 32] + i) mod 36]`. -/
theorem generate_deterministic_code_data (secret period : String) (n : Nat) :
    (generate_deterministic_code secret period n).data =
      (List.range n).map (fun i =>
        chars.data.getD
          (((hmacSha256 (strBytes secret) (strBytes period)).getD (i % 32) 0
              + i) % 36) 'A') := by
  unfold generate_deterministic_code
  simp only [hmacSha256_length, chars_data_length]

/-- The standalone generator is definitionally the in-server generator run
with the standalone module's secret at length 8. -/
theorem generate_code_eq (period : String) :
    codegenerator.generate_code period =
      generate_deterministic_code codegenerator.SECRET_SEED period 8 := rfl

end Serziam

namespace Serziam

/-! ### The claims -/

/-- C1: for every secret string, period string and positive length,
`generate_deterministic_code` (and `codegenerator.generate_code`) returns the
string whose character at each position `i` is the character at index
`(digest[i mod 32] + i) mod 36` of the fixed alphabet
`"ABCDEFGHIJKLMNOPQRSTUVWXYZ0123456789"`, for the HMAC-SHA-256 digest of the
period under the secret; with the default length 8 the result is an
8-character string over `A`-`Z`, `0`-`9`, and the result depends only on the
`(secret, period)` arguments. -/
theorem C1_code_derivation (secret period : String) (length : Nat)
    (hlen : 0 < length) :
    ((generate_deterministic_code secret period length).data =
      (List.range length).map (fun i =>
        chars.data.getD
          (((hmacSha256 (strBytes secret) (strBytes period)).getD (i % 32) 0
              + i) % 36) 'A'))
    ∧ ((codegenerator.generate_code period).data =
      (List.range 8).map (fun i =>
        chars.data.getD
          (((hmacSha256 (strBytes codegenerator.SECRET_SEED)
              (strBytes period)).getD (i % 32) 0 + i) % 36) 'A'))
    ∧ (generate_deterministic_code secret period 8).length = 8
    ∧ (∀ c ∈ (generate_deterministic_code secret period 8).data,
        ('A' ≤ c ∧ c ≤ 'Z') ∨ ('0' ≤ c ∧ c ≤ '9'))
    ∧ (∀ secret2 period2 : String, secret2 = secret → period2 = period →
        generate_deterministic_code secret2 period2 length =
          generate_deterministic_code secret period length) := by
  refine ⟨generate_deterministic_code_data secret period length, ?_,
    generate_deterministic_code_length secret period 8, ?_, ?_⟩
  · rw [generate_code_eq, generate_deterministic_code_data]
  · intro c hc
    rw [generate_deterministic_code_data] at hc
    rcases List.mem_map.mp hc with ⟨i, _, rfl⟩
    exact chars_getD_alpha _ (Nat.mod_lt _ (by norm_num))
  · intro s2 p2 hs hp
    rw [hs, hp]

/-- C1 witness: the theorem applied at secret `"S"`, period `"03-2025"`,
length 8. -/
theorem C1_code_derivation_witness :
    (generate_deterministic_code "S" "03-2025" 8).length = 8 :=
  (C1_code_derivation "S" "03-2025" 8 (by decide)).2.2.1

/-- C2: for every period (month 1..12, year), the computed expiry equals the
last calendar day of that month at 23:59:59; December rolls to January of the
next year, and the pinned instances `12-2024`, `01-2025` and leap-year
`02-2024` evaluate as the specification states. -/
theorem C2_expiry_end_of_month (month year : Nat) (h1 : 1 ≤ month)
    (h2 : month ≤ 12) :
    (expiry_of_period month year =
      DateTime.mk year month (daysInMonth month year) 23 59 59)
    ∧ expiry_of_period 12 2024 = DateTime.mk 2024 12 31 23 59 59
    ∧ expiry_of_period 1 2025 = DateTime.mk 2025 1 31 23 59 59
    ∧ expiry_of_period 2 2024 = DateTime.mk 2024 2 29 23 59 59 := by
  refine ⟨?_, by decide, by decide, by decide⟩
  rcases eq_or_ne month 12 with hm | hm
  · subst hm
    simp [expiry_of_period, subOneDay, daysInMonth]
  · have hlt : 1 < month + 1 := by omega
    simp [expiry_of_period, subOneDay, hm, hlt]

/-- C2 witness: the theorem applied at the leap-year period `02-2024`. -/
theorem C2_expiry_end_of_month_witness :
    expiry_of_period 2 2024 =
      DateTime.mk 2024 2 (daysInMonth 2 2024) 23 59 59 :=
  (C2_expiry_end_of_month 2 2024 (by decide) (by decide)).1

/-- C3: with a record in the store, the expiry check reports expired exactly
when `now` is strictly later than `expires_at`; at `expires_at` itself the
record is still valid, and one second later it is expired. -/
theorem C3_expiry_strictness (w : World) (r : CodeData) (now : DateTime)
    (hs : w.store = some r) :
    (is_code_expired w now = true ↔ dtLtB r.expires_at now = true)
    ∧ is_code_expired w r.expires_at = false
    ∧ is_code_expired w (addSecond r.expires_at) = true := by
  have he : ∀ t, is_code_expired w t = dtLtB r.expires_at t := by
    intro t
    simp [is_code_expired, get_current_access_code, hs]
  exact ⟨by rw [he], by rw [he, dtLtB_irrefl], by rw [he, dtLtB_addSecond]⟩

/-- C3 witness: the theorem applied at a concrete stored record. -/
theorem C3_expiry_strictness_witness :
    is_code_expired
      (World.mk
        (some (CodeData.mk "A1B2C3D4" "06-2025"
          (DateTime.mk 2025 6 30 23 59 59))) [] [])
      (DateTime.mk 2025 6 30 23 59 59) = false :=
  (C3_expiry_strictness _
    (CodeData.mk "A1B2C3D4" "06-2025" (DateTime.mk 2025 6 30 23 59 59))
    (DateTime.mk 2025 6 30 23 59 59) rfl).2.1

/-- C9: for every period string, the standalone `codegenerator.generate_code`
and the in-server `generate_deterministic_code` run with the default secret
`Config.SECRET_SEED` return identical codes. -/
theorem C9_generators_agree (period : String) :
    codegenerator.generate_code period =
      generate_deterministic_code Config.SECRET_SEED period 8 := rfl

/-- C4: in the non-expired path, at most 3 entry attempts are consumed:
three mismatching entries yield denial whatever follows, and a match on any
earlier attempt yields a grant, with no service call and no state change,
whatever follows. -/
theorem C4_attempt_bound (now : DateTime) (w : World) (d : CodeData)
    (bad : List String) (good : String) (rest : List Event)
    (hs : w.store = some d) (hexp : is_code_expired w now = false)
    (hbad : ∀ s ∈ bad, normalizeEntry s ≠ d.code) :
    (bad.length = 3 →
      check_and_validate_access now w (bad.map Event.entry ++ rest) =
        (some false, w))
    ∧ (bad.length < 3 → normalizeEntry good = d.code →
      check_and_validate_access now w
          (bad.map Event.entry ++ Event.entry good :: rest) =
        (some true, w)) := by
  have hc : ∀ evs,
      check_and_validate_access now w evs = promptLoop w 3 false 0 evs := by
    intro evs
    simp [check_and_validate_access, hexp, validate_current_code,
      get_current_access_code, hs, prompt_for_code]
  constructor
  · intro h3
    rw [hc, promptLoop_mismatch_list w d 3 false hs bad hbad 0 rest, h3,
      if_neg (by omega)]
  · intro hlt hgood
    rw [hc, promptLoop_mismatch_list w d 3 false hs bad hbad 0 _,
      if_pos (by omega),
      promptLoop_entry_ok w 3 false (0 + bad.length) good rest (by omega)
        (validate_code_of_eq w d good hs hgood)]
    simp

/-- C4 witness: the theorem applied to a concrete non-expired session with
three mismatching entries. -/
theorem C4_attempt_bound_witness :
    check_and_validate_access (DateTime.mk 2025 6 15 10 0 0) sampleWorld
        ([" x ", "y", "z"].map Event.entry ++ []) =
      (some false, sampleWorld) :=
  (C4_attempt_bound (DateTime.mk 2025 6 15 10 0 0) sampleWorld sampleRecord
    [" x ", "y", "z"] "unused" [] rfl (by decide) (by decide)).1 rfl

/-- C5 counterexample: in the expired-entry path, 9999 consecutive
mismatching entries do transition to denial, so attempts are not unbounded
as the claim states. -/
theorem C5_unbounded_retry_counterexample :
    prompt_for_code sampleWorld true (List.replicate 9999 (Event.entry "X")) =
      (some false, sampleWorld) := by
  have hrep : (List.replicate 9999 "X").map Event.entry =
      List.replicate 9999 (Event.entry "X") := by
    rw [List.map_replicate]
  have hbad : ∀ s ∈ List.replicate 9999 "X",
      normalizeEntry s ≠ sampleRecord.code := by
    intro s hsm
    rw [List.eq_of_mem_replicate hsm]
    decide
  have hp : prompt_for_code sampleWorld true
      ((List.replicate 9999 "X").map Event.entry) =
      promptLoop sampleWorld 9999 true 0
        ((List.replicate 9999 "X").map Event.entry) := rfl
  rw [← hrep, hp,
    ← List.append_nil ((List.replicate 9999 "X").map Event.entry),
    promptLoop_mismatch_list sampleWorld sampleRecord 9999 true rfl _ hbad 0 [],
    if_neg (by rw [List.length_replicate]; omega)]

/-- C5 (amended): in the expired-code path the attempt bound is 9999 rather
than unbounded; any number of mismatching entries below that bound leaves
the session waiting rather than denied, and before the bound only a matching
entry (granting, with a service start) or an interrupt (denying) ends the
session. -/
theorem C5_retry_bound (w : World) (d : CodeData) (bad : List String)
    (good : String) (rest : List Event) (hs : w.store = some d)
    (hbad : ∀ s ∈ bad, normalizeEntry s ≠ d.code)
    (hn : bad.length < 9999) :
    prompt_for_code w true (bad.map Event.entry) = (none, w)
    ∧ (normalizeEntry good = d.code →
      prompt_for_code w true
          (bad.map Event.entry ++ Event.entry good :: rest) =
        (some true, startService w))
    ∧ prompt_for_code w true (bad.map Event.entry ++ Event.interrupt :: rest) =
        (some false, w) := by
  have hp : ∀ evs,
      prompt_for_code w true evs = promptLoop w 9999 true 0 evs :=
    fun _ => rfl
  refine ⟨?_, ?_, ?_⟩
  · rw [hp, ← List.append_nil (bad.map Event.entry),
      promptLoop_mismatch_list w d 9999 true hs bad hbad 0 [],
      if_pos (by omega), promptLoop_nil, if_pos (by omega)]
  · intro hg
    rw [hp, promptLoop_mismatch_list w d 9999 true hs bad hbad 0 _,
      if_pos (by omega),
      promptLoop_entry_ok w 9999 true (0 + bad.length) good rest (by omega)
        (validate_code_of_eq w d good hs hg)]
    simp
  · rw [hp, promptLoop_mismatch_list w d 9999 true hs bad hbad 0 _,
      if_pos (by omega),
      promptLoop_interrupt w 9999 true (0 + bad.length) rest (by omega)]

/-- C5 witness: the amended theorem applied to a concrete expired-path
session with one mismatching entry. -/
theorem C5_retry_bound_witness :
    prompt_for_code sampleWorld true ([" x "].map Event.entry) =
      (none, sampleWorld) :=
  (C5_retry_bound sampleWorld sampleRecord [" x "] "unused" [] rfl (by decide)
    (by decide)).1

/-- C8: an operator entry is stripped of surrounding whitespace and
uppercased, then compared by exact string equality with the stored code:
the entry validates (and a session's first entry grants) exactly when its
normalized form equals the stored code, and `" a1b2c3d4 "` matches a stored
`"A1B2C3D4"`. -/
theorem C8_entry_normalization (w : World) (d : CodeData) (s : String)
    (hs : w.store = some d) :
    (validate_code w (normalizeEntry s) = true ↔ normalizeEntry s = d.code)
    ∧ (prompt_for_code w false [Event.entry s] = (some true, w) ↔
        normalizeEntry s = d.code)
    ∧ normalizeEntry " a1b2c3d4 " = "A1B2C3D4"
    ∧ validate_code sampleWorld (normalizeEntry " a1b2c3d4 ") = true := by
  refine ⟨?_, ?_, by decide, by decide⟩
  · simp [validate_code, get_current_access_code, hs]
  · constructor
    · intro h
      by_contra hne
      rw [show ([Event.entry s] : List Event) = Event.entry s :: [] from rfl]
        at h
      have hstep := promptLoop_entry_fail w 3 false 0 s [] (by norm_num)
        (validate_code_of_ne w d s hs hne)
      simp only [prompt_for_code, Bool.false_eq_true, if_false] at h
      rw [hstep, if_pos (by norm_num)] at h
      simp [promptLoop] at h
    · intro hg
      have hstep := promptLoop_entry_ok w 3 false 0 s [] (by norm_num)
        (validate_code_of_eq w d s hs hg)
      simp only [prompt_for_code, Bool.false_eq_true, if_false]
      rw [hstep]
      simp

/-- C8 witness: the theorem applied at the specification's concrete input. -/
theorem C8_entry_normalization_witness :
    validate_code sampleWorld (normalizeEntry " a1b2c3d4 ") = true ↔
      normalizeEntry " a1b2c3d4 " = sampleRecord.code :=
  (C8_entry_normalization sampleWorld sampleRecord " a1b2c3d4 " rfl).1

/-- C6 counterexample: with no current record in the store, a validation
session does not deny directly — it stops the managed service (a
`ServiceCall.stop` appears on the trace) and enters the expired-path entry
prompt, here ended by an operator interrupt. -/
theorem C6_missing_record_counterexample :
    check_and_validate_access (DateTime.mk 2025 6 15 10 0 0) emptyWorld
        [Event.interrupt] =
      (some false, World.mk none [] [ServiceCall.stop]) := rfl

/-- C6 (amended): with no current record at the start of a session, the
validator treats the situation as an expired code: it stops the service,
attempts a regeneration whose `UPDATE` persists nothing (the store stays
empty), and enters the unlimited-entry prompt where no entry can validate,
so the session can never grant access, writes no history, and issues exactly
one stop call. -/
theorem C6_missing_record_behavior (now : DateTime) (w : World)
    (evs : List Event) (hw : w.store = none) :
    (check_and_validate_access now w evs).1 ≠ some true
    ∧ (check_and_validate_access now w evs).2.store = none
    ∧ (check_and_validate_access now w evs).2.serviceCalls =
        w.serviceCalls ++ [ServiceCall.stop]
    ∧ (check_and_validate_access now w evs).2.history = w.history := by
  obtain ⟨st, hi, sc⟩ := w
  simp only [] at hw
  subst hw
  have hexp : is_code_expired (World.mk none hi sc) now = true := rfl
  have hcheck : check_and_validate_access now (World.mk none hi sc) evs =
      promptLoop (World.mk none hi (sc ++ [ServiceCall.stop])) 9999 true 0
        evs := by
    simp [check_and_validate_access, hexp, handle_expired_code,
      update_access_code, prompt_for_code, stopService]
  rcases promptLoop_store_none (World.mk none hi (sc ++ [ServiceCall.stop]))
      9999 true rfl evs 0 with h | h
  · rw [hcheck, h]
    exact ⟨by simp, rfl, rfl, rfl⟩
  · rw [hcheck, h]
    exact ⟨by simp, rfl, rfl, rfl⟩

/-- C6 witness: the amended theorem applied to a concrete session on an
empty store. -/
theorem C6_missing_record_behavior_witness :
    (check_and_validate_access (DateTime.mk 2025 6 15 10 0 0) emptyWorld
      [Event.interrupt]).1 ≠ some true :=
  (C6_missing_record_behavior (DateTime.mk 2025 6 15 10 0 0) emptyWorld
    [Event.interrupt] rfl).1

/-- C7 counterexample: a session over an expired record regenerates the code
(the stored period becomes the new month and the service is stopped) yet
appends nothing to the access-code history log. -/
theorem C7_history_not_written_counterexample :
    ((check_and_validate_access (DateTime.mk 2025 1 15 10 0 0) expiredWorld
        [Event.interrupt]).2.history = ([] : List (String × String)))
    ∧ (check_and_validate_access (DateTime.mk 2025 1 15 10 0 0) expiredWorld
        [Event.interrupt]).2.serviceCalls = [ServiceCall.stop]
    ∧ ((check_and_validate_access (DateTime.mk 2025 1 15 10 0 0) expiredWorld
        [Event.interrupt]).2.store).map (fun d => d.month_year) =
        some "01-2025" :=
  ⟨rfl, rfl, rfl⟩

/-- C7 (amended): no path of a validation session — in particular the
expired-code regeneration path, whose `update_access_code` only runs an
`UPDATE` on the current record — ever appends an entry to the access-code
history log; the history is left exactly as it was. -/
theorem C7_no_history_append (now : DateTime) (w : World)
    (evs : List Event) :
    (check_and_validate_access now w evs).2.history = w.history := by
  unfold check_and_validate_access
  cases hexp : is_code_expired w now with
  | true =>
    simp only [hexp, if_true]
    unfold handle_expired_code prompt_for_code
    rw [promptLoop_history]
    simp [update_access_code, stopService]
  | false =>
    simp only [hexp, Bool.false_eq_true, if_false]
    unfold validate_current_code
    cases hst : get_current_access_code w with
    | none => rfl
    | some d =>
      simp only []
      unfold prompt_for_code
      rw [promptLoop_history]

/-- C10: `update_access_code` returns `True` whenever the database is
reachable, even when the `access_codes` table has no row with `id = 1`; in
that case the `UPDATE` modifies zero rows and no current record exists
afterwards, so a `True` result does not guarantee that a record was
persisted. -/
theorem C10_update_returns_true (w : World) (new_code month_year : String)
    (expires_at : DateTime) :
    (update_access_code w new_code month_year expires_at).1 = true
    ∧ (w.store = none →
      get_current_access_code
        (update_access_code w new_code month_year expires_at).2 = none) := by
  refine ⟨rfl, ?_⟩
  intro hw
  simp [update_access_code, get_current_access_code, hw]

/-- C10 witness: the theorem applied to an empty store. -/
theorem C10_update_returns_true_witness :
    get_current_access_code
      (update_access_code emptyWorld "NEWCODE1" "01-2025"
        (DateTime.mk 2025 1 31 23 59 59)).2 = none :=
  (C10_update_returns_true emptyWorld "NEWCODE1" "01-2025"
    (DateTime.mk 2025 1 31 23 59 59)).2 rfl

end Serziam
